import Mathlib

/-!
# Verification of the `next-server-wrap` request pipeline

A shallow embedding of the library's core: the structured error type
(`src/core/error.ts`), the response helpers (`src/core/response.ts`),
the retry middleware (`src/core/middleware/retry.ts`), the rate-limit
middleware (`src/core/middleware/rate-limit.ts`), the response-cache
middleware (`src/core/middleware/cache.ts`), the error handler
(`src/core/wrapper/error-handler.ts`), and the unified pipeline
orchestrator (`src/core/wrapper/pipeline.ts`, `runPipeline`) together
with the API-wrapper cache short-circuit
(`src/core/wrapper/api/index.ts` / `handlers.ts`).

JavaScript asynchrony is modelled by explicit state passing and traces:
each adapter is a pure function, logger calls are accumulated into an
event list, the rate-limit counter store is threaded through as a map,
and wall-clock time is a natural-number duration attached to handler
invocations.  Thrown JavaScript values are an explicit `JsError` sum
(structured `ApiError`s, plain `Error`s, other values, and `undefined`).
-/

namespace NextServerWrap

/-! ## Structured errors (`src/core/error.ts`) -/

/-- Structure `ValidationErrorDetail` from `src/core/error.ts`: a field path and message. -/
structure ValidationErrorDetail where
  field : String
  message : String
deriving DecidableEq, Repr

/-- Structure `ApiError` from `src/core/error.ts`: message, HTTP status, error code and
optional field-level validation details. -/
structure ApiError where
  message : String
  status : Nat
  code : String
  errors : Option (List ValidationErrorDetail) := none
deriving DecidableEq, Repr

/-- The universe of values thrown by the JavaScript code: structured
`ApiError`s (matched by `ApiError.isApiError`), plain `Error` instances
(configuration errors, unstructured handler errors), other thrown values,
and `undefined` (thrown by `withRetry` when the attempt loop never ran). -/
inductive JsError where
  | api (e : ApiError)
  | plain (message : String)
  | other (repr : String)
  | undef
deriving DecidableEq, Repr

/-- Predicate `ApiError.isApiError` from `src/core/error.ts` (an `instanceof` check). -/
def JsError.isApiError : JsError → Bool
  | .api _ => true
  | _ => false

/-! ## Response helpers (`src/core/response.ts`, class `ApiResponse`) -/

/-- Helper `ApiResponse.badRequest` from `src/core/response.ts`. -/
def ApiResponse.badRequest (message : String := "Bad request") : ApiError :=
  ⟨message, 400, "BAD_REQUEST", none⟩

/-- Helper `ApiResponse.unauthorized` from `src/core/response.ts`. -/
def ApiResponse.unauthorized (message : String := "Authentication required") : ApiError :=
  ⟨message, 401, "UNAUTHORIZED", none⟩

/-- Helper `ApiResponse.forbidden` from `src/core/response.ts`. -/
def ApiResponse.forbidden (message : String := "Access denied") : ApiError :=
  ⟨message, 403, "FORBIDDEN", none⟩

/-- Helper `ApiResponse.tooManyRequests` from `src/core/response.ts`. -/
def ApiResponse.tooManyRequests (message : String := "Rate limit exceeded") : ApiError :=
  ⟨message, 429, "TOO_MANY_REQUESTS", none⟩

/-- Helper `ApiResponse.internalError` from `src/core/response.ts`. -/
def ApiResponse.internalError (message : String := "Internal server error") : ApiError :=
  ⟨message, 500, "INTERNAL_ERROR", none⟩

/-! ## Timed computations

A handler invocation is modelled as a value together with the wall-clock
duration (in milliseconds) it takes to settle. -/

/-- A computation outcome together with the time (ms) it takes to settle. -/
structure Timed (T : Type) where
  duration : Nat
  result : T
deriving DecidableEq, Repr

/-! ## Retry middleware (`src/core/middleware/retry.ts`, `withRetry`) -/

/-- Structure `RetryConfig` from `src/core/types.ts`.  `attempts` is an `Int` because a
JavaScript number may be zero or negative; `delayMs` and `retryOn` are
optional and defaulted inside `withRetry` exactly as the destructuring
`{ attempts, delayMs = 100, retryOn = DEFAULT_RETRY_STATUS_CODES, shouldRetry }`
does. -/
structure RetryConfig where
  attempts : Int
  delayMs : Option Nat := none
  retryOn : Option (List Nat) := none
  shouldRetry : Option (JsError → Nat → Bool) := none

/-- Constant `DEFAULT_RETRY_STATUS_CODES` from `src/core/middleware/retry.ts`. -/
def DEFAULT_RETRY_STATUS_CODES : List Nat := [502, 503, 504]

/-- The retryability decision of one `catch` block iteration in `withRetry`:
a supplied `shouldRetry` predicate alone decides; otherwise only `ApiError`
failures whose status is in `retryOn` are retried. -/
def retryDecision (shouldRetry : Option (JsError → Nat → Bool)) (retryOn : List Nat)
    (e : JsError) (attempt : Nat) : Bool :=
  match shouldRetry with
  | some p => p e attempt
  | none =>
    match e with
    | .api ae => retryOn.contains ae.status
    | _ => false

/-- The trace of one `withRetry` run: the settled result, the number of times
the wrapped operation was invoked, the warn-level retry log lines (attempt
number and computed delay, i.e. the `logger?.warn` calls), the backoff sleeps
performed, and the total wall-clock duration (attempt durations plus sleeps). -/
structure RetryTrace (T : Type) where
  result : Except JsError T
  calls : Nat
  warns : List (Nat × Nat)
  sleeps : List Nat
  duration : Nat
deriving Repr

/-- The `for (let attempt = 1; attempt <= attempts; attempt++)` loop body of
`withRetry`.  `fuel` is the number of loop iterations still permitted
including the current one, so `attempt === attempts` is `fuel = 0` after the
pattern match; exhausting the fuel without entering the body models the
trailing `throw lastError` with `lastError` still `undefined`. -/
def retryLoop {T : Type} (fn : Nat → Timed (Except JsError T)) (delayMs : Nat)
    (retryOn : List Nat) (shouldRetry : Option (JsError → Nat → Bool)) :
    Nat → Nat → RetryTrace T
  | _, 0 => ⟨.error .undef, 0, [], [], 0⟩
  | attempt, fuel + 1 =>
    let t := fn attempt
    match t.result with
    | .ok v => ⟨.ok v, 1, [], [], t.duration⟩
    | .error e =>
      if retryDecision shouldRetry retryOn e attempt = false ∨ fuel = 0 then
        ⟨.error e, 1, [], [], t.duration⟩
      else
        let delay := delayMs * 2 ^ (attempt - 1)
        let rest := retryLoop fn delayMs retryOn shouldRetry (attempt + 1) fuel
        ⟨rest.result, rest.calls + 1, (attempt, delay) :: rest.warns,
          delay :: rest.sleeps, t.duration + delay + rest.duration⟩

/-- Function `withRetry` from `src/core/middleware/retry.ts`: run `fn` for attempts
`1 .. attempts`; on success return immediately; on failure rethrow when the
retry decision is negative or this was the last attempt, otherwise log a warn
line, sleep `delayMs * 2 ^ (attempt - 1)` and try again.  When `attempts ≤ 0`
the loop never runs and the trailing `throw lastError` throws `undefined`. -/
def withRetry {T : Type} (fn : Nat → Timed (Except JsError T)) (config : RetryConfig) :
    RetryTrace T :=
  retryLoop fn (config.delayMs.getD 100) (config.retryOn.getD DEFAULT_RETRY_STATUS_CODES)
    config.shouldRetry 1 config.attempts.toNat

/-! ## Timeout guard (`src/core/middleware/timeout.ts`)

The file `src/core/middleware/timeout.ts` itself is not part of the available
sources — only its re-export, its callers and its documentation are — so the
guard is modelled from the spec. -/

/-- Modelled from the spec: the distinguished Timeout failure thrown by
`withTimeout` (`src/core/middleware/timeout.ts` is missing from the sources).
Spec §4.4 / §8: status 408 with code `TIMEOUT`; the message text is not
specified by the spec and no claim depends on it. -/
def timeoutApiError : ApiError :=
  ⟨"Request timeout", 408, "TIMEOUT", none⟩

/-- Modelled from the spec: `withTimeout` from `src/core/middleware/timeout.ts`,
which is missing from the sources (only its callers and re-export appear).
Spec §4.4: it races the operation against a deadline of `ms` milliseconds and
throws the distinguished Timeout failure (status 408, code `TIMEOUT`) if the
operation has not settled within `ms`; otherwise the operation's own result
stands.  The underlying operation is not cancelled, only no longer awaited. -/
def withTimeout {T : Type} (op : Timed (Except JsError T)) (ms : Nat) :
    Timed (Except JsError T) :=
  if ms < op.duration then ⟨ms, .error (.api timeoutApiError)⟩ else op

/-- Lifting of `withTimeout` to a retry trace: the settled result and the time
the caller waits are capped by the deadline, while the number of operation
invocations, warn lines and sleeps of the (uncancelled, §4.4) background
operation are unchanged. -/
def withTimeoutTrace {T : Type} (t : RetryTrace T) (ms : Nat) : RetryTrace T :=
  if ms < t.duration then
    { t with result := .error (.api timeoutApiError), duration := ms }
  else t

/-- A single un-retried `runHandler` invocation as a trace (the
`maybeRetry = runHandler` branch of the pipeline's execution step). -/
def singleRun {T : Type} (fn : Nat → Timed (Except JsError T)) : RetryTrace T :=
  ⟨(fn 1).result, 1, [], [], (fn 1).duration⟩

/-- The handler-execution wiring of `runPipeline`
(`src/core/wrapper/pipeline.ts` lines 248-259, identically
`src/core/wrapper/api/index.ts` old form lines 163-171):

    const maybeRetry = retry ? () => withRetry(runHandler, retry, ...) : runHandler;
    const result = effectiveTimeout ? await withTimeout(maybeRetry(), effectiveTimeout)
                                    : await maybeRetry();

The timeout, when configured and non-zero (JavaScript truthiness), wraps the
whole retry sequence once. -/
def executeWithPolicies {T : Type} (fn : Nat → Timed (Except JsError T))
    (retry : Option RetryConfig) (effectiveTimeout : Option Nat) : RetryTrace T :=
  let maybeRetry :=
    match retry with
    | some cfg => withRetry fn cfg
    | none => singleRun fn
  match effectiveTimeout with
  | some t => if t = 0 then maybeRetry else withTimeoutTrace maybeRetry t
  | none => maybeRetry

/-- The execution-step semantics that the spec's words describe ("timeout wraps
each individual retryable invocation, so total wall time can exceed the
configured timeout by up to `attempts × timeout`"): every attempt is
independently raced against the deadline and the retry loop itself is not.
Stated for comparison with `executeWithPolicies`; it is not the source's
wiring. -/
def executePerAttemptClaim {T : Type} (fn : Nat → Timed (Except JsError T))
    (retry : Option RetryConfig) (effectiveTimeout : Option Nat) : RetryTrace T :=
  let wrapped : Nat → Timed (Except JsError T) := fun attempt =>
    match effectiveTimeout with
    | some t => if t = 0 then fn attempt else withTimeout (fn attempt) t
    | none => fn attempt
  match retry with
  | some cfg => withRetry wrapped cfg
  | none => singleRun wrapped

/-! ## Log events

Calls on the optional logger adapter, recorded as a trace. -/

/-- One call on the logger adapter.  The `error` case carries the message of
the logged `Error` object (or the stringified non-`Error` value placed in the
metadata) alongside the log line. -/
inductive LogEvent where
  | debug (msg : String)
  | info (msg : String)
  | warn (msg : String)
  | error (msg : String) (errMessage : Option String)
deriving DecidableEq, Repr

/-- The text a thrown JavaScript value contributes to an error log entry:
an `Error`'s `message`, or `String(error)` for anything else. -/
def JsError.loggedText : JsError → String
  | .api e => e.message
  | .plain m => m
  | .other s => s
  | .undef => "undefined"

/-! ## Default response transformers and the error handler
(`src/core/response.ts`, `src/core/wrapper/error-handler.ts`) -/

/-- The body built by the default error transformer in `src/core/response.ts`:
`{ success: false, message, code }` plus `errors` only when a non-empty list
was supplied. -/
structure ErrorBody where
  success : Bool
  message : String
  code : String
  errors : Option (List ValidationErrorDetail)
deriving DecidableEq, Repr

/-- Default error transformer from `src/core/response.ts`
(`defaultTransformers.error`). -/
def defaultErrorTransform (message : String) (code : String) (_status : Nat)
    (errors : Option (List ValidationErrorDetail)) : ErrorBody :=
  { success := false, message := message, code := code,
    errors := match errors with
      | some es => if 0 < es.length then some es else none
      | none => none }

/-- An HTTP error response as produced by `createErrorResponse` plus the
`X-Request-ID` header the error handler stamps on it. -/
structure ErrorResponse where
  status : Nat
  body : ErrorBody
  requestIdHeader : Option String
deriving DecidableEq, Repr

/-- Function `createErrorResponse` from `src/core/response.ts`, with the
default (global) transformers in effect: serialize
`transform(error.message, error.code, error.status, error.errors)` at the
error's status. -/
def createErrorResponse (error : ApiError) : ErrorResponse :=
  { status := error.status,
    body := defaultErrorTransform error.message error.code error.status error.errors,
    requestIdHeader := none }

/-- Function `handleError` from `src/core/wrapper/error-handler.ts` (with the
default transformers): a structured `ApiError` passes through
`createErrorResponse` unchanged; anything else is logged once at error level
(`'Unhandled error'` with the original message, or the stringified value) and
canonicalized to `ApiResponse.internalError()`.  Returns the response and the
logger calls made. -/
def handleError (error : JsError) (hasLogger : Bool) (requestId : Option String) :
    ErrorResponse × List LogEvent :=
  match error with
  | .api ae =>
    ({ createErrorResponse ae with requestIdHeader := requestId }, [])
  | e =>
    ({ createErrorResponse (ApiResponse.internalError) with requestIdHeader := requestId },
     if hasLogger then [.error "Unhandled error" (some e.loggedText)] else [])

/-! ## Rate limiting (`src/core/middleware/rate-limit.ts`) -/

/-- Structure `RateLimitConfig` from `src/core/types.ts`. -/
structure RateLimitConfig where
  max : Nat
  windowMs : Nat
deriving DecidableEq, Repr

/-- The rate-limit counter store held by the cache adapter, keyed by the
rate-limit key.  Models the `CacheAdapter.increment` contract documented in
`src/core/types.ts`: "Atomic increment - returns new value. Creates key with
value 1 if doesn't exist". -/
def CounterMap : Type := String → Nat

/-- The adapter's `increment`: returns the new value and the updated store. -/
def CounterMap.increment (m : CounterMap) (key : String) : Nat × CounterMap :=
  let v := m key + 1
  (v, fun k => if k = key then v else m k)

/-- Constant `DEFAULT_RATE_LIMITS` from `src/core/middleware/rate-limit.ts`,
as the lookup `DEFAULT_RATE_LIMITS[method]`. -/
def DEFAULT_RATE_LIMITS (method : String) : Option RateLimitConfig :=
  if method = "GET" then some ⟨200, 60000⟩
  else if method = "POST" then some ⟨50, 60000⟩
  else if method = "PUT" then some ⟨50, 60000⟩
  else if method = "PATCH" then some ⟨50, 60000⟩
  else if method = "DELETE" then some ⟨20, 60000⟩
  else none

/-- The result record of `checkRateLimit` from
`src/core/middleware/rate-limit.ts`. -/
structure RateLimitCheck where
  allowed : Bool
  count : Nat
  resetAt : Nat
deriving DecidableEq, Repr

/-- Function `checkRateLimit` from `src/core/middleware/rate-limit.ts`: with no
cache adapter, always allowed with count 0 (fail-open); otherwise one atomic
increment, allowed iff the post-increment count is at most `config.max`, and
`resetAt = now + windowMs` computed at check time. -/
def checkRateLimit (hasCache : Bool) (counters : CounterMap) (key : String)
    (config : RateLimitConfig) (now : Nat) : RateLimitCheck × CounterMap :=
  if hasCache = false then
    (⟨true, 0, now + config.windowMs⟩, counters)
  else
    let (count, counters') := counters.increment key
    (⟨decide (count ≤ config.max), count, now + config.windowMs⟩, counters')

/-- Function `buildRateLimitKey` from `src/core/middleware/rate-limit.ts`. -/
def buildRateLimitKey (method pathname identifier : String) : String :=
  "ratelimit:" ++ method ++ ":" ++ pathname ++ ":" ++ identifier

/-! ## Validation (`src/core/wrapper/pipeline.ts`, `validateSchema`)

A zod schema is modelled as its observable `safeParseAsync` behaviour: a
function from the raw value to either the parsed value or a list of issues,
each issue being a (already stringified) path and a message. -/

/-- One zod issue: `{ path, message }` with the `PropertyKey` path entries
already passed through `String` (as `formatZodErrors` does). -/
structure ZodIssue where
  path : List String
  message : String
deriving DecidableEq, Repr

/-- Function `formatZodErrors` from `src/core/wrapper/pipeline.ts`: each issue
becomes `{ field: issue.path.map(String).join('.'), message }`. -/
def formatZodErrors (issues : List ZodIssue) : List ValidationErrorDetail :=
  issues.map fun issue => ⟨String.intercalate "." issue.path, issue.message⟩

/-- Function `validateSchema` from `src/core/wrapper/pipeline.ts`: run the
schema; on failure throw
`ApiError('Validation failed for ' + fieldName, 422, 'VALIDATION_ERROR', formatZodErrors(...))`,
on success return the parsed data. -/
def validateSchema {V : Type} (schema : V → Except (List ZodIssue) V) (data : V)
    (fieldName : String) : Except JsError V :=
  match schema data with
  | .error issues =>
    .error (.api ⟨"Validation failed for " ++ fieldName, 422, "VALIDATION_ERROR",
      some (formatZodErrors issues)⟩)
  | .ok v => .ok v

/-- The raw (and, after step 5, validated) input triple of one invocation. -/
structure RawInput (V : Type) where
  params : V
  query : V
  body : V
deriving DecidableEq, Repr

/-- Structure `ValidationConfig` from `src/core/types.ts`: an optional schema
per input slot. -/
structure ValidationConfig (V : Type) where
  params : Option (V → Except (List ZodIssue) V) := none
  query : Option (V → Except (List ZodIssue) V) := none
  body : Option (V → Except (List ZodIssue) V) := none

/-- One slot of step 5 of `runPipeline`:
`validation?.slot ? await validateSchema(validation.slot, raw, name) : raw`. -/
def slotValidate {V : Type} (schema : Option (V → Except (List ZodIssue) V)) (data : V)
    (fieldName : String) : Except JsError V :=
  match schema with
  | some s => validateSchema s data fieldName
  | none => .ok data

/-- Step 5 of `runPipeline` (`src/core/wrapper/pipeline.ts` lines 230-243):
validate params, then query, then body; the `await`s run in that order, so the
first failing slot throws and later slots are not consulted. -/
def validateInputs {V : Type} (validation : Option (ValidationConfig V))
    (raw : RawInput V) : Except JsError (RawInput V) :=
  match slotValidate (validation.bind fun v => v.params) raw.params "params" with
  | .error e => .error e
  | .ok p =>
    match slotValidate (validation.bind fun v => v.query) raw.query "query" with
    | .error e => .error e
    | .ok q =>
      match slotValidate (validation.bind fun v => v.body) raw.body "body" with
      | .error e => .error e
      | .ok b => .ok ⟨p, q, b⟩

/-! ## Adapters and pipeline configuration (`src/core/types.ts`,
`src/core/wrapper/pipeline.ts`) -/

/-- Structure `AuthAdapter` from `src/core/types.ts`, over an abstract user
type `U` and auth-request-context type `A`: `verify` returns the principal or
`null`, `hasRole` checks roles, and `isTenantValid` is optional. -/
structure AuthAdapter (U A : Type) where
  verify : A → Option U
  hasRole : U → List String → Bool
  isTenantValid : Option (U → A → Bool) := none

/-- The `rateLimit` option of `PipelineOptions`
(`RateLimitConfig | false | undefined`). -/
inductive RateLimitOption where
  | unset
  | off
  | policy (c : RateLimitConfig)

/-- Structure `PipelineOptions` from `src/core/wrapper/pipeline.ts`.
`tenantScoped` is the JavaScript truthiness of the optional flag; `audit` is
kept optional because `runPipeline` destructures it with default `true`. -/
structure PipelineOptions (V : Type) where
  auth : Option (List String) := none
  tenantScoped : Bool := false
  rateLimit : RateLimitOption := .unset
  timeout : Option Nat := none
  retry : Option RetryConfig := none
  audit : Option Bool := none
  validation : Option (ValidationConfig V) := none

/-- Structure `PipelineDefaults` from `src/core/wrapper/pipeline.ts`
(`defaults?.timeout`, `defaults?.rateLimit?.[method]`); an absent `defaults`
object is the record with both lookups empty. -/
structure PipelineDefaults where
  timeout : Option Nat := none
  rateLimit : String → Option RateLimitConfig := fun _ => none

/-- The shared shape of `PipelineSuccessMeta` and `PipelineErrorMeta` from
`src/core/wrapper/pipeline.ts`. -/
structure PipelineMeta (U : Type) where
  requestId : String
  user : U
  durationMs : Nat
  method : String
  path : String
deriving DecidableEq, Repr

/-- Structure `RateLimitResult` from `src/core/wrapper/pipeline.ts` (the value
handed to `onRateLimited`). -/
structure RateLimitResult where
  allowed : Bool
  limit : Option Nat := none
  resetAt : Option Nat := none
deriving DecidableEq, Repr

/-- Structure `AuditEvent` from `src/core/types.ts`, restricted to the fields
`runPipeline` populates.  The `timestamp` is the abstract current instant. -/
structure AuditEvent (U : Type) where
  requestId : String
  user : U
  action : String
  resource : String
  durationMs : Nat
  status : Nat
  success : Bool
  errorCode : Option String := none
  timestamp : Nat
deriving DecidableEq, Repr

/-- Structure `PipelineInput` from `src/core/wrapper/pipeline.ts` over abstract
context, result, user, raw-value and auth-context types.  The injected
dependencies are modelled by their observable behaviour: `getAuthContext` and
`getRawInput` may throw (`Except`), `executeHandler` is indexed by the retry
attempt number and timed, and the three result converters may themselves throw
(the action-shaped converters do).  Adapter presence is the `hasCache` /
`hasLogger` flags plus the optional auth adapter; the cache adapter's counter
state is threaded separately. -/
structure PipelineInput (Ctx R U V A : Type) where
  requestId : String
  method : String
  path : String
  getAuthContext : Except JsError A
  getIdentifier : U → String
  getRawInput : Except JsError (RawInput V)
  buildContext : U → RawInput V → Ctx
  executeHandler : Ctx → Nat → Timed (Except JsError R)
  onRateLimited : RateLimitResult → Except JsError R
  onSuccess : R → PipelineMeta U → Except JsError R
  onError : JsError → PipelineMeta U → Except JsError R
  options : PipelineOptions V
  authAdapter : Option (AuthAdapter U A)
  hasCache : Bool
  hasLogger : Bool
  defaults : PipelineDefaults := {}
  anonymous : U

/-- The observable outcome of one `runPipeline` invocation: the returned value
(`Except.error` meaning an exception escaped the orchestrator, which only the
converters themselves can cause), the updated counter store, the logger calls,
the audit records, and how many times the business handler was invoked. -/
structure PipelineRun (U R : Type) where
  result : Except JsError R
  counters : CounterMap
  logs : List LogEvent
  audits : List (AuditEvent U)
  handlerCalls : Nat

/-! ## The pipeline orchestrator (`src/core/wrapper/pipeline.ts`, `runPipeline`) -/

/-- Step 2 of `runPipeline` (lines 178-196): when an auth requirement is
configured, a missing auth adapter is a configuration error (a plain `Error`);
a `null` verification result throws `ApiResponse.unauthorized()`; a non-empty
role list additionally requires `hasRole`, else `ApiResponse.forbidden()`. -/
def authStep {U A : Type} (authRoles : Option (List String))
    (adapter : Option (AuthAdapter U A)) (getAuthContext : Except JsError A)
    (anonymous : U) : Except JsError U :=
  match authRoles with
  | none => .ok anonymous
  | some roles =>
    match adapter with
    | none => .error (.plain "Auth adapter not configured but auth is required")
    | some a =>
      match getAuthContext with
      | .error e => .error e
      | .ok authCtx =>
        match a.verify authCtx with
        | none => .error (.api (ApiResponse.unauthorized))
        | some u =>
          if 0 < roles.length && !a.hasRole u roles then
            .error (.api (ApiResponse.forbidden))
          else .ok u

/-- Step 3 of `runPipeline` (lines 198-209): with `tenantScoped` truthy, a
missing `isTenantValid` capability (or missing auth adapter) is a
configuration error; a negative check throws
`ApiResponse.forbidden('Tenant context required')`. -/
def tenantStep {U A : Type} (tenantScoped : Bool) (adapter : Option (AuthAdapter U A))
    (getAuthContext : Except JsError A) (user : U) : Except JsError Unit :=
  if tenantScoped then
    match adapter.bind (fun a => a.isTenantValid) with
    | none => .error (.plain "isTenantValid must be defined in auth adapter when tenantScoped is true")
    | some f =>
      match getAuthContext with
      | .error e => .error e
      | .ok authCtx =>
        if f user authCtx then .ok ()
        else .error (.api (ApiResponse.forbidden "Tenant context required"))
  else .ok ()

/-- The decision of step 4. -/
inductive RateOutcome where
  | proceed
  | limited (res : RateLimitResult)

/-- Step 4 of `runPipeline` (lines 211-228): skipped when `rateLimit === false`
or no cache adapter is present; otherwise the effective policy is
`rateLimit || defaults?.rateLimit?.[method] || DEFAULT_RATE_LIMITS[method]`,
and a disallowed check short-circuits with the configured `max` and the
computed reset time. -/
def rateLimitStep (rateLimit : RateLimitOption) (hasCache : Bool)
    (method path identifier : String) (defaults : PipelineDefaults)
    (counters : CounterMap) (now : Nat) : RateOutcome × CounterMap :=
  match rateLimit, hasCache with
  | .off, _ => (.proceed, counters)
  | _, false => (.proceed, counters)
  | rl, true =>
    let config : Option RateLimitConfig :=
      match rl with
      | .policy c => some c
      | _ => (defaults.rateLimit method).orElse fun _ => DEFAULT_RATE_LIMITS method
    match config with
    | none => (.proceed, counters)
    | some c =>
      let key := buildRateLimitKey method path identifier
      let (res, counters') := checkRateLimit true counters key c now
      if res.allowed then (.proceed, counters')
      else (.limited ⟨false, some c.max, some res.resetAt⟩, counters')

/-- The `timeout || defaults?.timeout` JavaScript disjunction (`0` is falsy). -/
def jsOrTimeout (timeout defaultTimeout : Option Nat) : Option Nat :=
  match timeout with
  | some n => if n = 0 then defaultTimeout else some n
  | none => defaultTimeout

/-- The status of the catch block: `ApiError.isApiError(error) ? error.status : 500`. -/
def errorStatus : JsError → Nat
  | .api ae => ae.status
  | _ => 500

/-- The audit `errorCode` the catch block records:
`ApiError.isApiError(error) ? error.code : 'INTERNAL_ERROR'`. -/
def errorAuditCode : JsError → String
  | .api ae => ae.code
  | _ => "INTERNAL_ERROR"

/-- The `catch` block of `runPipeline` (lines 284-311): compute the status
(`ApiError.isApiError(error) ? error.status : 500`), emit the
`method path status` info log, emit one failure audit record when audit is
enabled and a logger is present (with the error's code, or `INTERNAL_ERROR`
for non-`ApiError`s), and hand off to `onError`. -/
def failExit {Ctx R U V A : Type} (inp : PipelineInput Ctx R U V A)
    (auditEnabled : Bool) (counters : CounterMap) (now durationMs : Nat)
    (logs : List LogEvent) (e : JsError) (user : U) (calls : Nat) :
    PipelineRun U R :=
  let catchLog := if inp.hasLogger then
      [LogEvent.info (inp.method ++ " " ++ inp.path ++ " " ++ toString (errorStatus e))] else []
  let failAudit : List (AuditEvent U) :=
    if auditEnabled && inp.hasLogger then
      [{ requestId := inp.requestId, user := user, action := inp.method,
         resource := inp.path, durationMs := durationMs, status := errorStatus e,
         success := false, errorCode := some (errorAuditCode e), timestamp := now }]
    else []
  { result := inp.onError e
      { requestId := inp.requestId, user := user, durationMs := durationMs,
        method := inp.method, path := inp.path },
    counters := counters, logs := logs ++ catchLog, audits := failAudit,
    handlerCalls := calls }

/-- Step 5 of `runPipeline`: `const rawInput = await getRawInput()` followed
by the three slot validations — a throwing raw-input provider (e.g. the API
wrapper's body parser) and a failing validation reach the same `catch`. -/
def rawValidated {V : Type} (getRawInput : Except JsError (RawInput V))
    (validation : Option (ValidationConfig V)) : Except JsError (RawInput V) :=
  match getRawInput with
  | .error e => .error e
  | .ok raw => validateInputs validation raw

/-- Function `runPipeline` from `src/core/wrapper/pipeline.ts`: start log,
authentication, tenant scoping, rate limiting (short-circuiting to
`onRateLimited` without completion log or audit), input validation, context
construction, handler execution under retry and timeout, completion log,
success audit, `onSuccess` — with every throw from the steps inside the `try`
routed through the single `catch` (`failExit`).  `counters` is the cache
adapter's counter store and `now` the abstract current instant (pre- and
post-steps are instantaneous; the execution step takes its trace's
duration). -/
def runPipeline {Ctx R U V A : Type} (inp : PipelineInput Ctx R U V A)
    (counters : CounterMap) (now : Nat) : PipelineRun U R :=
  let auditEnabled := inp.options.audit.getD true
  let startLogs := if inp.hasLogger then
      [LogEvent.info (inp.method ++ " " ++ inp.path)] else []
  match authStep inp.options.auth inp.authAdapter inp.getAuthContext inp.anonymous with
  | .error e => failExit inp auditEnabled counters now 0 startLogs e inp.anonymous 0
  | .ok user =>
    match tenantStep inp.options.tenantScoped inp.authAdapter inp.getAuthContext user with
    | .error e => failExit inp auditEnabled counters now 0 startLogs e user 0
    | .ok _ =>
      match rateLimitStep inp.options.rateLimit inp.hasCache inp.method inp.path
          (inp.getIdentifier user) inp.defaults counters now with
      | (.limited res, counters') =>
        (match inp.onRateLimited res with
        | .ok r =>
          { result := .ok r, counters := counters', logs := startLogs,
            audits := [], handlerCalls := 0 }
        | .error e => failExit inp auditEnabled counters' now 0 startLogs e user 0)
      | (.proceed, counters') =>
        match rawValidated inp.getRawInput inp.options.validation with
        | .error e => failExit inp auditEnabled counters' now 0 startLogs e user 0
        | .ok validated =>
          let ctx := inp.buildContext user validated
          let exec := executeWithPolicies (inp.executeHandler ctx) inp.options.retry
            (jsOrTimeout inp.options.timeout inp.defaults.timeout)
          let retryAttempts : Int := match inp.options.retry with
            | some cfg => cfg.attempts
            | none => 0
          let execLogs := if inp.hasLogger then
              exec.warns.map (fun w =>
                LogEvent.warn ("Retry attempt " ++ toString w.1 ++ "/" ++
                  toString retryAttempts ++ " after " ++ toString w.2 ++ "ms"))
            else []
          let logs1 := startLogs ++ execLogs
          match exec.result with
          | .error e =>
            failExit inp auditEnabled counters' now exec.duration logs1 e user exec.calls
          | .ok r =>
            let completeLog := if inp.hasLogger then
                [LogEvent.info (inp.method ++ " " ++ inp.path ++ " completed")] else []
            let successAudit : List (AuditEvent U) :=
              if auditEnabled && inp.hasLogger then
                [{ requestId := inp.requestId, user := user, action := inp.method,
                   resource := inp.path, durationMs := exec.duration, status := 200,
                   success := true, errorCode := none, timestamp := now }]
              else []
            match inp.onSuccess r
                { requestId := inp.requestId, user := user, durationMs := exec.duration,
                  method := inp.method, path := inp.path } with
            | .ok final =>
              { result := .ok final, counters := counters',
                logs := logs1 ++ completeLog, audits := successAudit,
                handlerCalls := exec.calls }
            | .error e =>
              let fe := failExit inp auditEnabled counters' now exec.duration
                (logs1 ++ completeLog) e user exec.calls
              { fe with audits := successAudit ++ fe.audits }

/-! ## Response cache (`src/core/middleware/cache.ts`,
`src/core/wrapper/api/handlers.ts`, `src/core/wrapper/api/index.ts`) -/

/-- The subset of a `Request` the cache layer reads. -/
structure RequestM where
  method : String
  pathname : String
  search : String
deriving DecidableEq, Repr

/-- Structure `CachedResponse` from `src/core/middleware/cache.ts`: the stored
envelope (serialized body, status, headers record). -/
structure CachedResponse where
  body : String
  status : Nat
  headers : List (String × String)
deriving DecidableEq, Repr

/-- A web `Response` as the cache-hit path observes it: body, status and a
header lookup. -/
structure WebResponse where
  body : String
  status : Nat
  headers : String → Option String

/-- The cache adapter's stored envelopes, keyed by cache key
(`CacheAdapter.get` from `src/core/types.ts`). -/
def CacheStore : Type := String → Option CachedResponse

/-- Structure `CacheConfig` from `src/core/types.ts`. -/
structure CacheConfig where
  ttlMs : Nat
  keyGenerator : Option (RequestM → String) := none
  successOnly : Option Bool := none

/-- Function `generateCacheKey` from `src/core/middleware/cache.ts`:
`'cache:' + method + ':' + pathname + search`. -/
def generateCacheKey (req : RequestM) : String :=
  "cache:" ++ req.method ++ ":" ++ req.pathname ++ req.search

/-- Function `getCacheKey` from `src/core/middleware/cache.ts`: the custom
generator when supplied, else the default key. -/
def getCacheKey (req : RequestM) (config : CacheConfig) : String :=
  match config.keyGenerator with
  | some g => g req
  | none => generateCacheKey req

/-- Lookup in a stored headers record (an object literal; a later duplicate
key overrides an earlier one). -/
def headersLookup (l : List (String × String)) (k : String) : Option String :=
  l.reverse.lookup k

/-- Function `getCachedResponse` from `src/core/middleware/cache.ts`: on a
stored envelope, a debug log line and a `Response` rebuilt verbatim from the
envelope's body and status, with the stored headers spread and then
`X-Request-ID` and `X-Cache: HIT` written on top; `null` on a miss. -/
def getCachedResponse (cache : CacheStore) (cacheKey requestId : String)
    (hasLogger : Bool) : Option WebResponse × List LogEvent :=
  match cache cacheKey with
  | some c =>
    (some { body := c.body, status := c.status,
            headers := fun k =>
              if k = "X-Cache" then some "HIT"
              else if k = "X-Request-ID" then some requestId
              else headersLookup c.headers k },
     if hasLogger then [.debug "Cache hit"] else [])
  | none => (none, [])

/-- Function `checkCache` from `src/core/wrapper/api/handlers.ts`: `null`
unless a cache config, a cache adapter and the `GET` method are all present;
otherwise a lookup under the derived key. -/
def checkCache (req : RequestM) (cache : Option CacheConfig)
    (cacheStore : Option CacheStore) (requestId : String) (hasLogger : Bool) :
    Option WebResponse × List LogEvent :=
  match cache, cacheStore with
  | some cfg, some store =>
    if req.method = "GET" then
      getCachedResponse store (getCacheKey req cfg) requestId hasLogger
    else (none, [])
  | _, _ => (none, [])

/-- The pre-pipeline cache gate of the API wrapper
(`src/core/wrapper/api/index.ts` lines 48-51): a hit is returned immediately
and `runPipeline` — here the opaque continuation `runRest`, yielding the final
response and the number of handler invocations it performs — is never entered;
a miss defers to it.  A hit performs no handler invocation. -/
def apiWrapperCacheGate (req : RequestM) (cache : Option CacheConfig)
    (cacheStore : Option CacheStore) (requestId : String) (hasLogger : Bool)
    (runRest : Unit → WebResponse × Nat) : (WebResponse × Nat) × List LogEvent :=
  match checkCache req cache cacheStore requestId hasLogger with
  | (some cached, logs) => ((cached, 0), logs)
  | (none, logs) => (runRest (), logs)

/-! ## Concrete instances

Closed configurations, adapters and pipeline inputs used to evaluate the
model on explicit inputs. -/

/-- An empty counter store. -/
def counters0 : CounterMap := fun _ => 0

/-- A retry policy of two attempts with the default backoff and statuses. -/
def c1retry : RetryConfig := { attempts := 2 }

/-- An operation that fails with a retryable 503 on attempt 1 (taking 100 ms)
and succeeds on attempt 2 (taking 100 ms). -/
def c1fn : Nat → Timed (Except JsError Nat) := fun attempt =>
  if attempt = 1 then
    ⟨100, .error (.api ⟨"Service unavailable", 503, "SERVICE_UNAVAILABLE", none⟩)⟩
  else ⟨100, .ok 0⟩

/-- A retry policy of three attempts with a 10 ms base delay. -/
def c7cfg : RetryConfig := { attempts := 3, delayMs := some 10 }

/-- An operation failing with a retryable 502 on attempt 1 and succeeding on
attempt 2. -/
def c7fn : Nat → Timed (Except JsError Nat) := fun attempt =>
  if attempt = 1 then ⟨0, .error (.api ⟨"Bad gateway", 502, "BAD_GATEWAY", none⟩)⟩
  else ⟨0, .ok 7⟩

/-- A validation configuration whose params schema always fails on field `a`
and whose body schema always fails on field `email`. -/
def c2validation : ValidationConfig Nat :=
  { params := some fun _ => .error [⟨["a"], "Required"⟩],
    body := some fun _ => .error [⟨["email"], "Invalid email"⟩] }

/-- A pipeline invocation with both the params and the body schema failing,
whose error converter reports the field names of the structured error. -/
def c2inp : PipelineInput Unit (List String) String Nat Unit :=
  { requestId := "req-2", method := "POST", path := "/signup",
    getAuthContext := .ok (),
    getIdentifier := fun _ => "anonymous",
    getRawInput := .ok ⟨0, 0, 0⟩,
    buildContext := fun _ _ => (),
    executeHandler := fun _ _ => ⟨0, .ok []⟩,
    onRateLimited := fun _ => .ok [],
    onSuccess := fun r _ => .ok r,
    onError := fun e _ => .ok (match e with
      | .api ae => (ae.errors.getD []).map fun d => d.field
      | _ => []),
    options := { validation := some c2validation },
    authAdapter := none, hasCache := true, hasLogger := false,
    anonymous := "" }

/-- A rate-limit policy of 1 request per second. -/
def c3cfg : RateLimitConfig := ⟨1, 1000⟩

/-- A pipeline invocation with audit left at its default, a logger present,
and a rate limit of 1 whose converter returns a 429 value. -/
def c3inp : PipelineInput Unit Nat String Nat Unit :=
  { requestId := "req-3", method := "GET", path := "/items",
    getAuthContext := .ok (),
    getIdentifier := fun _ => "anonymous",
    getRawInput := .ok ⟨0, 0, 0⟩,
    buildContext := fun _ _ => (),
    executeHandler := fun _ _ => ⟨0, .ok 200⟩,
    onRateLimited := fun _ => .ok 429,
    onSuccess := fun r _ => .ok r,
    onError := fun e _ => .ok (errorStatus e),
    options := { rateLimit := .policy c3cfg },
    authAdapter := none, hasCache := true, hasLogger := true,
    anonymous := "" }

/-- A counter store in which the key of `c3inp` already holds 1 use. -/
def c3counters : CounterMap := fun k =>
  if k = buildRateLimitKey "GET" "/items" "anonymous" then 1 else 0

/-- A plain successful invocation with a logger: no auth, no rate limit, a
handler returning 123 after 5 ms. -/
def c3okInp : PipelineInput Unit Nat String Nat Unit :=
  { requestId := "req-3b", method := "GET", path := "/ok",
    getAuthContext := .ok (),
    getIdentifier := fun _ => "anonymous",
    getRawInput := .ok ⟨0, 0, 0⟩,
    buildContext := fun _ _ => (),
    executeHandler := fun _ _ => ⟨5, .ok 123⟩,
    onRateLimited := fun _ => .ok 429,
    onSuccess := fun r _ => .ok r,
    onError := fun e _ => .ok (errorStatus e),
    options := { rateLimit := .off },
    authAdapter := none, hasCache := false, hasLogger := true,
    anonymous := "" }

/-- Like `c3okInp` but the handler throws a structured 400 after 5 ms. -/
def c3errInp : PipelineInput Unit Nat String Nat Unit :=
  { requestId := "req-3c", method := "GET", path := "/err",
    getAuthContext := .ok (),
    getIdentifier := fun _ => "anonymous",
    getRawInput := .ok ⟨0, 0, 0⟩,
    buildContext := fun _ _ => (),
    executeHandler := fun _ _ => ⟨5, .error (.api (ApiResponse.badRequest))⟩,
    onRateLimited := fun _ => .ok 429,
    onSuccess := fun r _ => .ok r,
    onError := fun e _ => .ok (errorStatus e),
    options := { rateLimit := .off },
    authAdapter := none, hasCache := false, hasLogger := true,
    anonymous := "" }

/-- A pipeline invocation that requires authentication but has no auth adapter
configured, with the API-shaped error converter (structured error response). -/
def c4inp : PipelineInput Unit ErrorResponse String Nat Unit :=
  { requestId := "req-4", method := "POST", path := "/cfg",
    getAuthContext := .ok (),
    getIdentifier := fun _ => "anonymous",
    getRawInput := .ok ⟨0, 0, 0⟩,
    buildContext := fun _ _ => (),
    executeHandler := fun _ _ => ⟨0, .ok (createErrorResponse (ApiResponse.badRequest))⟩,
    onRateLimited := fun _ => .ok (createErrorResponse (ApiResponse.tooManyRequests)),
    onSuccess := fun r _ => .ok r,
    onError := fun e _ => .ok (handleError e true none).1,
    options := { auth := some [] },
    authAdapter := none, hasCache := false, hasLogger := true,
    anonymous := "" }

/-- A GET request with a query string. -/
def c5req : RequestM := ⟨"GET", "/posts", "?page=1"⟩

/-- A cache configuration with a 5-second TTL and the default key. -/
def c5cfg : CacheConfig := { ttlMs := 5000 }

/-- A stored response envelope. -/
def c5env : CachedResponse := ⟨"[1,2]", 200, [("Content-Type", "application/json")]⟩

/-- A cache adapter state holding `c5env` under the default key of `c5req`. -/
def c5store : CacheStore := fun k =>
  if k = generateCacheKey c5req then some c5env else none

/-- A rate-limit policy of 2 requests per minute. -/
def c8cfg : RateLimitConfig := ⟨2, 60000⟩

/-- A pipeline invocation rate-limited at 2/min whose rate-limited converter
reports the carried limit and reset time. -/
def c8inp : PipelineInput Unit (Nat × Nat) String Nat Unit :=
  { requestId := "req-8", method := "GET", path := "/api",
    getAuthContext := .ok (),
    getIdentifier := fun _ => "anonymous",
    getRawInput := .ok ⟨0, 0, 0⟩,
    buildContext := fun _ _ => (),
    executeHandler := fun _ _ => ⟨0, .ok (0, 0)⟩,
    onRateLimited := fun res => .ok (res.limit.getD 0, res.resetAt.getD 0),
    onSuccess := fun r _ => .ok r,
    onError := fun _ _ => .ok (0, 0),
    options := { rateLimit := .policy c8cfg },
    authAdapter := none, hasCache := true, hasLogger := false,
    anonymous := "" }

/-- A counter store in which the key of `c8inp` already holds 2 uses. -/
def c8counters : CounterMap := fun k =>
  if k = buildRateLimitKey "GET" "/api" "anonymous" then 2 else 0

/-- An auth adapter whose verification always fails. -/
def c9adapter : AuthAdapter String Unit :=
  { verify := fun _ => none, hasRole := fun _ _ => false }

/-- A pipeline invocation requiring authentication against `c9adapter`, whose
error converter reports the structured error's status. -/
def c9inp : PipelineInput Unit Nat String Nat Unit :=
  { requestId := "req-9", method := "GET", path := "/users",
    getAuthContext := .ok (),
    getIdentifier := fun u => if u = "" then "anonymous" else u,
    getRawInput := .ok ⟨0, 0, 0⟩,
    buildContext := fun _ _ => (),
    executeHandler := fun _ _ => ⟨0, .ok 200⟩,
    onRateLimited := fun _ => .ok 429,
    onSuccess := fun r _ => .ok r,
    onError := fun e _ => .ok (errorStatus e),
    options := { auth := some [] },
    authAdapter := some c9adapter,
    hasCache := false, hasLogger := false,
    anonymous := "" }

/-! ## Helper lemmas -/

/-- Joining a one-element path with dots is the element itself
(`['email'].join('.') = 'email'`). -/
theorem intercalate_dot_singleton (a : String) : String.intercalate "." [a] = a := by
  simp [String.intercalate, String.intercalate.go]

/-! ## Claim C10 -/

/-- C10: for every retry configuration with `attempts ≤ 0`, the retry wrapper
never invokes the wrapped operation and rejects by throwing the undefined
value (not an `Error` object): the attempt loop body never executes and the
trailing `throw` rethrows the never-assigned `lastError`. -/
theorem c10_retry_nonpositive_attempts {T : Type} (fn : Nat → Timed (Except JsError T))
    (config : RetryConfig) (h : config.attempts ≤ 0) :
    withRetry fn config = ⟨.error .undef, 0, [], [], 0⟩ := by
  have ht : config.attempts.toNat = 0 := Int.toNat_of_nonpos h
  simp only [withRetry, ht]
  rfl

/-- Witness for C10 at the concrete configuration `attempts = -2`. -/
theorem c10_retry_nonpositive_attempts_witness :
    ((-2 : Int) ≤ 0)
  ∧ withRetry (fun _ => (⟨0, Except.ok 0⟩ : Timed (Except JsError Nat)))
      { attempts := -2 } = ⟨.error .undef, 0, [], [], 0⟩ :=
  ⟨by decide, c10_retry_nonpositive_attempts _ _ (by decide)⟩

/-! ## Claim C6 -/

/-- C6: for every pair of unstructured (non-`ApiError`) thrown errors, the
caller-visible outcome of the error handler is identical regardless of the
original error text: status 500, message exactly "Internal server error",
code `INTERNAL_ERROR`; the original message appears only in one error-level
log entry and never in the output channel. -/
theorem c6_internal_error_sanitized (e1 e2 : JsError) (hasLogger : Bool)
    (rid : Option String) (h1 : e1.isApiError = false) (h2 : e2.isApiError = false) :
    (handleError e1 hasLogger rid).1 = (handleError e2 hasLogger rid).1
  ∧ (handleError e1 hasLogger rid).1.status = 500
  ∧ (handleError e1 hasLogger rid).1.body =
      { success := false, message := "Internal server error",
        code := "INTERNAL_ERROR", errors := none }
  ∧ (handleError e1 true rid).2 = [.error "Unhandled error" (some e1.loggedText)] := by
  cases e1 <;> cases e2 <;>
    simp_all [handleError, JsError.isApiError, createErrorResponse,
      ApiResponse.internalError, defaultErrorTransform, JsError.loggedText]

/-- Witness for C6: an `Error` with message "boom" and a non-`Error` thrown
value produce identical sanitized 500 responses, and the original message is
logged exactly once. -/
theorem c6_internal_error_sanitized_witness :
    (JsError.plain "boom").isApiError = false
  ∧ (handleError (.plain "boom") true (some "r1")).1 =
      (handleError (.other "kaput") true (some "r1")).1
  ∧ (handleError (.plain "boom") true (some "r1")).1.status = 500
  ∧ (handleError (.plain "boom") true (some "r1")).2 =
      [.error "Unhandled error" (some "boom")] := by
  have h := c6_internal_error_sanitized (.plain "boom") (.other "kaput") true
    (some "r1") rfl rfl
  exact ⟨rfl, h.1, h.2.1, h.2.2.2⟩

/-! ## Claim C1 -/

/-- C1 counterexample: with retry (2 attempts, default 100 ms backoff) and a
150 ms timeout, an operation taking 100 ms per attempt (failing retryably on
attempt 1, succeeding on attempt 2) makes the whole retry sequence take
300 ms.  The source's wiring (`executeWithPolicies`, timeout around the whole
retry) settles at 150 ms with the 408 `TIMEOUT` failure — a shared budget —
whereas the claimed per-attempt wiring (`executePerAttemptClaim`) would
succeed after 300 ms, exceeding the configured timeout.  So the timeout guard
is not applied per retry attempt, and the total wall time of the execution
step cannot exceed the configured timeout. -/
theorem c1_counterexample :
    (executeWithPolicies c1fn (some c1retry) (some 150)).result
        = .error (.api timeoutApiError)
  ∧ (executeWithPolicies c1fn (some c1retry) (some 150)).duration = 150
  ∧ (withRetry c1fn c1retry).result = .ok 0
  ∧ (withRetry c1fn c1retry).duration = 300
  ∧ (executePerAttemptClaim c1fn (some c1retry) (some 150)).result = .ok 0
  ∧ (executePerAttemptClaim c1fn (some c1retry) (some 150)).duration = 300 :=
  ⟨rfl, rfl, rfl, rfl, rfl, rfl⟩

/-- C1 (amended): when both a retry policy and a (non-zero) timeout are
configured, the timeout wraps the entire retry sequence as one shared budget:
the handler-execution step settles within the configured timeout, it is
transparent when the retry sequence settles in time, and it fails with the
408 `TIMEOUT` error when the retry sequence has not settled by the
deadline. -/
theorem c1_amended_shared_timeout_budget {T : Type} (fn : Nat → Timed (Except JsError T))
    (cfg : RetryConfig) (t : Nat) (ht : t ≠ 0) :
    (executeWithPolicies fn (some cfg) (some t)).duration ≤ t
  ∧ ((withRetry fn cfg).duration ≤ t →
      executeWithPolicies fn (some cfg) (some t) = withRetry fn cfg)
  ∧ (t < (withRetry fn cfg).duration →
      (executeWithPolicies fn (some cfg) (some t)).result = .error (.api timeoutApiError)
      ∧ (executeWithPolicies fn (some cfg) (some t)).duration = t) := by
  simp only [executeWithPolicies, withTimeoutTrace, if_neg ht]
  by_cases h : t < (withRetry fn cfg).duration
  · rw [if_pos h]
    exact ⟨le_refl t, fun hle => absurd h (by omega), fun _ => ⟨rfl, rfl⟩⟩
  · rw [if_neg h]
    exact ⟨by omega, fun _ => rfl, fun hlt => absurd hlt h⟩

/-- Witness for the amended C1 at the concrete 150 ms timeout over the 300 ms
retry sequence. -/
theorem c1_amended_shared_timeout_budget_witness :
    (150 : Nat) ≠ 0
  ∧ (executeWithPolicies c1fn (some c1retry) (some 150)).duration ≤ 150
  ∧ (executeWithPolicies c1fn (some c1retry) (some 150)).result
      = .error (.api timeoutApiError) := by
  have h := c1_amended_shared_timeout_budget c1fn c1retry 150 (by decide)
  exact ⟨by decide, h.1, (h.2.2 (by decide)).1⟩

/-! ## Claim C7 -/

/-- Trace of the retry loop when attempts `attempt .. attempt+j-1` fail
retryably and attempt `attempt+j` succeeds: the success is returned, the
operation ran `j+1` times, and one warn line and one backoff sleep of
`delayMs * 2 ^ (a - 1)` precede each re-attempt `a+1`. -/
theorem retryLoop_ok_trace {T : Type} (fn : Nat → Timed (Except JsError T)) (d : Nat)
    (r : List Nat) (s : Option (JsError → Nat → Bool)) (v : T) :
    ∀ (j attempt fuel : Nat), j < fuel →
      (∀ i, i < j → ∃ e, (fn (attempt + i)).result = Except.error e ∧
        retryDecision s r e (attempt + i) = true) →
      (fn (attempt + j)).result = Except.ok v →
      (retryLoop fn d r s attempt fuel).result = Except.ok v
      ∧ (retryLoop fn d r s attempt fuel).calls = j + 1
      ∧ (retryLoop fn d r s attempt fuel).warns =
          (List.range' attempt j).map (fun a => (a, d * 2 ^ (a - 1)))
      ∧ (retryLoop fn d r s attempt fuel).sleeps =
          (List.range' attempt j).map (fun a => d * 2 ^ (a - 1)) := by
  intro j
  induction j with
  | zero =>
    intro attempt fuel hj hfail hsucc
    obtain ⟨f, rfl⟩ : ∃ f, fuel = f + 1 := ⟨fuel - 1, by omega⟩
    rw [Nat.add_zero] at hsucc
    simp [retryLoop, hsucc, List.range']
  | succ j ih =>
    intro attempt fuel hj hfail hsucc
    obtain ⟨f, rfl⟩ : ∃ f, fuel = f + 1 := ⟨fuel - 1, by omega⟩
    obtain ⟨e, he, hd⟩ := hfail 0 (Nat.succ_pos j)
    rw [Nat.add_zero] at he hd
    have hcond : ¬(retryDecision s r e attempt = false ∨ f = 0) := by
      rintro (h | h)
      · rw [h] at hd; exact Bool.false_ne_true hd
      · omega
    have hfail' : ∀ i, i < j → ∃ e', (fn (attempt + 1 + i)).result = Except.error e' ∧
        retryDecision s r e' (attempt + 1 + i) = true := by
      intro i hi
      have h := hfail (i + 1) (by omega)
      rwa [show attempt + (i + 1) = attempt + 1 + i by omega] at h
    have hsucc' : (fn (attempt + 1 + j)).result = Except.ok v := by
      rwa [show attempt + (j + 1) = attempt + 1 + j by omega] at hsucc
    have ihm := ih (attempt + 1) f (by omega) hfail' hsucc'
    simp only [retryLoop, he, if_neg hcond]
    refine ⟨ihm.1, by rw [ihm.2.1], ?_, ?_⟩
    · rw [List.range'_succ, List.map_cons, ihm.2.2.1]
    · rw [List.range'_succ, List.map_cons, ihm.2.2.2]

/-- Trace of the retry loop when attempts `attempt .. attempt+j-1` fail
retryably and attempt `attempt+j` fails non-retryably or is the last permitted
attempt: the failure is rethrown immediately, the operation ran `j+1` times,
and no sleep or warn line follows the final failure. -/
theorem retryLoop_error_trace {T : Type} (fn : Nat → Timed (Except JsError T)) (d : Nat)
    (r : List Nat) (s : Option (JsError → Nat → Bool)) (e : JsError) :
    ∀ (j attempt fuel : Nat), j < fuel →
      (∀ i, i < j → ∃ e', (fn (attempt + i)).result = Except.error e' ∧
        retryDecision s r e' (attempt + i) = true) →
      (fn (attempt + j)).result = Except.error e →
      (retryDecision s r e (attempt + j) = false ∨ fuel = j + 1) →
      (retryLoop fn d r s attempt fuel).result = Except.error e
      ∧ (retryLoop fn d r s attempt fuel).calls = j + 1
      ∧ (retryLoop fn d r s attempt fuel).warns =
          (List.range' attempt j).map (fun a => (a, d * 2 ^ (a - 1)))
      ∧ (retryLoop fn d r s attempt fuel).sleeps =
          (List.range' attempt j).map (fun a => d * 2 ^ (a - 1)) := by
  intro j
  induction j with
  | zero =>
    intro attempt fuel hj hfail he hlast
    obtain ⟨f, rfl⟩ : ∃ f, fuel = f + 1 := ⟨fuel - 1, by omega⟩
    rw [Nat.add_zero] at he hlast
    have hcond : retryDecision s r e attempt = false ∨ f = 0 := by
      rcases hlast with h | h
      · exact .inl h
      · exact .inr (by omega)
    simp [retryLoop, he, if_pos hcond, List.range']
  | succ j ih =>
    intro attempt fuel hj hfail he hlast
    obtain ⟨f, rfl⟩ : ∃ f, fuel = f + 1 := ⟨fuel - 1, by omega⟩
    obtain ⟨e0, he0, hd0⟩ := hfail 0 (Nat.succ_pos j)
    rw [Nat.add_zero] at he0 hd0
    have hcond : ¬(retryDecision s r e0 attempt = false ∨ f = 0) := by
      rintro (h | h)
      · rw [h] at hd0; exact Bool.false_ne_true hd0
      · omega
    have hfail' : ∀ i, i < j → ∃ e', (fn (attempt + 1 + i)).result = Except.error e' ∧
        retryDecision s r e' (attempt + 1 + i) = true := by
      intro i hi
      have h := hfail (i + 1) (by omega)
      rwa [show attempt + (i + 1) = attempt + 1 + i by omega] at h
    have he' : (fn (attempt + 1 + j)).result = Except.error e := by
      rwa [show attempt + (j + 1) = attempt + 1 + j by omega] at he
    have hlast' : retryDecision s r e (attempt + 1 + j) = false ∨ f = j + 1 := by
      rcases hlast with h | h
      · exact .inl (by rwa [show attempt + (j + 1) = attempt + 1 + j by omega] at h)
      · exact .inr (by omega)
    have ihm := ih (attempt + 1) f (by omega) hfail' he' hlast'
    simp only [retryLoop, he0, if_neg hcond]
    refine ⟨ihm.1, by rw [ihm.2.1], ?_, ?_⟩
    · rw [List.range'_succ, List.map_cons, ihm.2.2.1]
    · rw [List.range'_succ, List.map_cons, ihm.2.2.2]

/-- C7: for every retry configuration with `attempts ≥ 1` and every operation
failing retryably on attempts `1..k-1` and succeeding on attempt `k ≤
attempts`, `withRetry` returns the success, invokes the operation exactly `k`
times, emits `k-1` warn-level retry log lines, and sleeps
`delayMs * 2 ^ (attempt - 1)` before each re-attempt; a supplied `shouldRetry`
predicate alone decides retryability, otherwise only `ApiError` failures with
status in `retryOn` are retried; and a non-retryable or last-attempt failure
is rethrown immediately with no further delay. -/
theorem c7_retry_success_and_rethrow :
    (∀ (T : Type) (fn : Nat → Timed (Except JsError T)) (cfg : RetryConfig) (k : Nat) (v : T),
      1 ≤ k → (k : Int) ≤ cfg.attempts →
      (∀ i, 1 ≤ i → i < k → ∃ e, (fn i).result = Except.error e ∧
        retryDecision cfg.shouldRetry (cfg.retryOn.getD DEFAULT_RETRY_STATUS_CODES) e i = true) →
      (fn k).result = Except.ok v →
      (withRetry fn cfg).result = Except.ok v
      ∧ (withRetry fn cfg).calls = k
      ∧ (withRetry fn cfg).warns.length = k - 1
      ∧ (withRetry fn cfg).warns =
          (List.range (k - 1)).map (fun i => (i + 1, cfg.delayMs.getD 100 * 2 ^ i))
      ∧ (withRetry fn cfg).sleeps =
          (List.range (k - 1)).map (fun i => cfg.delayMs.getD 100 * 2 ^ i))
  ∧ (∀ (p : JsError → Nat → Bool) (rO : List Nat) (e : JsError) (a : Nat),
      retryDecision (some p) rO e a = p e a)
  ∧ (∀ (rO : List Nat) (ae : ApiError) (a : Nat),
      retryDecision none rO (.api ae) a = rO.contains ae.status)
  ∧ (∀ (rO : List Nat) (e : JsError) (a : Nat),
      e.isApiError = false → retryDecision none rO e a = false)
  ∧ (∀ (T : Type) (fn : Nat → Timed (Except JsError T)) (cfg : RetryConfig) (k : Nat)
      (e : JsError),
      1 ≤ k → (k : Int) ≤ cfg.attempts →
      (∀ i, 1 ≤ i → i < k → ∃ e', (fn i).result = Except.error e' ∧
        retryDecision cfg.shouldRetry (cfg.retryOn.getD DEFAULT_RETRY_STATUS_CODES) e' i = true) →
      (fn k).result = Except.error e →
      (retryDecision cfg.shouldRetry (cfg.retryOn.getD DEFAULT_RETRY_STATUS_CODES) e k = false
        ∨ (k : Int) = cfg.attempts) →
      (withRetry fn cfg).result = Except.error e
      ∧ (withRetry fn cfg).calls = k
      ∧ (withRetry fn cfg).warns.length = k - 1
      ∧ (withRetry fn cfg).sleeps.length = k - 1) := by
  refine ⟨?_, fun p rO e a => rfl, fun rO ae a => rfl, ?_, ?_⟩
  · intro T fn cfg k v hk hka hfail hsucc
    have hfuel : k - 1 < cfg.attempts.toNat := by omega
    have hfail' : ∀ i, i < k - 1 → ∃ e, (fn (1 + i)).result = Except.error e ∧
        retryDecision cfg.shouldRetry (cfg.retryOn.getD DEFAULT_RETRY_STATUS_CODES)
          e (1 + i) = true := by
      intro i hi
      have h := hfail (1 + i) (by omega) (by omega)
      exact h
    have hsucc' : (fn (1 + (k - 1))).result = Except.ok v := by
      rwa [show 1 + (k - 1) = k by omega]
    have h := retryLoop_ok_trace fn (cfg.delayMs.getD 100)
      (cfg.retryOn.getD DEFAULT_RETRY_STATUS_CODES) cfg.shouldRetry v
      (k - 1) 1 cfg.attempts.toNat hfuel hfail' hsucc'
    simp only [withRetry]
    refine ⟨h.1, by rw [h.2.1]; omega, ?_, ?_, ?_⟩
    · rw [h.2.2.1]; simp
    · rw [h.2.2.1, List.range'_eq_map_range, List.map_map]
      refine List.map_congr_left fun i _ => ?_
      simp only [Function.comp_apply]
      rw [show 1 + i = i + 1 by omega]
      simp
    · rw [h.2.2.2, List.range'_eq_map_range, List.map_map]
      refine List.map_congr_left fun i _ => ?_
      simp only [Function.comp_apply]
      rw [show 1 + i = i + 1 by omega]
      simp
  · intro rO e a hne
    cases e <;> simp_all [retryDecision, JsError.isApiError]
  · intro T fn cfg k e hk hka hfail he hlast
    have hfuel : k - 1 < cfg.attempts.toNat := by omega
    have hfail' : ∀ i, i < k - 1 → ∃ e', (fn (1 + i)).result = Except.error e' ∧
        retryDecision cfg.shouldRetry (cfg.retryOn.getD DEFAULT_RETRY_STATUS_CODES)
          e' (1 + i) = true := by
      intro i hi
      exact hfail (1 + i) (by omega) (by omega)
    have he' : (fn (1 + (k - 1))).result = Except.error e := by
      rwa [show 1 + (k - 1) = k by omega]
    have hlast' : retryDecision cfg.shouldRetry (cfg.retryOn.getD DEFAULT_RETRY_STATUS_CODES)
        e (1 + (k - 1)) = false ∨ cfg.attempts.toNat = (k - 1) + 1 := by
      rcases hlast with h | h
      · exact .inl (by rwa [show 1 + (k - 1) = k by omega])
      · exact .inr (by omega)
    have h := retryLoop_error_trace fn (cfg.delayMs.getD 100)
      (cfg.retryOn.getD DEFAULT_RETRY_STATUS_CODES) cfg.shouldRetry e
      (k - 1) 1 cfg.attempts.toNat hfuel hfail' he' hlast'
    simp only [withRetry]
    refine ⟨h.1, by rw [h.2.1]; omega, by rw [h.2.2.1]; simp, by rw [h.2.2.2]; simp⟩

/-- Witness for C7: with three attempts and a 10 ms base delay, an operation
failing with a retryable 502 on attempt 1 and succeeding on attempt 2 ends in
success after exactly 2 invocations, one warn line, and one 10 ms sleep. -/
theorem c7_retry_success_and_rethrow_witness :
    (withRetry c7fn c7cfg).result = Except.ok 7
  ∧ (withRetry c7fn c7cfg).calls = 2
  ∧ (withRetry c7fn c7cfg).warns.length = 1
  ∧ (withRetry c7fn c7cfg).warns = [(1, 10)]
  ∧ (withRetry c7fn c7cfg).sleeps = [10] := by
  have h := c7_retry_success_and_rethrow.1 Nat c7fn c7cfg 2 7 (by decide) (by decide)
    (fun i h1 h2 => by
      have hi : i = 1 := by omega
      subst hi
      exact ⟨.api ⟨"Bad gateway", 502, "BAD_GATEWAY", none⟩, rfl, rfl⟩)
    rfl
  exact ⟨h.1, h.2.1, h.2.2.1, h.2.2.2.1, h.2.2.2.2⟩

/-! ## Claim C5 -/

/-- C5: for every GET request with caching configured and a cache adapter
present, a cache hit short-circuits the entire pipeline: the continuation
holding authentication, validation, rate limiting and the handler is never
entered (the result is the same for every continuation and the handler call
count is zero), and the stored envelope's body, status and headers are
returned verbatim with the `X-Cache: HIT` marker (plus the always-present
`X-Request-ID` stamp). -/
theorem c5_cache_hit_short_circuits (req : RequestM) (cfgc : CacheConfig)
    (store : CacheStore) (rid : String) (hasLogger : Bool) (env : CachedResponse)
    (runRest : Unit → WebResponse × Nat)
    (hm : req.method = "GET") (hhit : store (getCacheKey req cfgc) = some env) :
    (apiWrapperCacheGate req (some cfgc) (some store) rid hasLogger runRest).1.2 = 0
  ∧ (apiWrapperCacheGate req (some cfgc) (some store) rid hasLogger runRest).1.1.body
      = env.body
  ∧ (apiWrapperCacheGate req (some cfgc) (some store) rid hasLogger runRest).1.1.status
      = env.status
  ∧ (apiWrapperCacheGate req (some cfgc) (some store) rid hasLogger runRest).1.1.headers
      "X-Cache" = some "HIT"
  ∧ (apiWrapperCacheGate req (some cfgc) (some store) rid hasLogger runRest).1.1.headers
      "X-Request-ID" = some rid
  ∧ (∀ k, k ≠ "X-Cache" → k ≠ "X-Request-ID" →
      (apiWrapperCacheGate req (some cfgc) (some store) rid hasLogger runRest).1.1.headers k
        = headersLookup env.headers k)
  ∧ (∀ runRest2, apiWrapperCacheGate req (some cfgc) (some store) rid hasLogger runRest2
      = apiWrapperCacheGate req (some cfgc) (some store) rid hasLogger runRest) := by
  have hc : checkCache req (some cfgc) (some store) rid hasLogger =
      (some { body := env.body, status := env.status,
              headers := fun k =>
                if k = "X-Cache" then some "HIT"
                else if k = "X-Request-ID" then some rid
                else headersLookup env.headers k },
       if hasLogger then [LogEvent.debug "Cache hit"] else []) := by
    simp [checkCache, hm, getCachedResponse, hhit]
  refine ⟨by simp [apiWrapperCacheGate, hc], by simp [apiWrapperCacheGate, hc],
    by simp [apiWrapperCacheGate, hc], by simp [apiWrapperCacheGate, hc],
    by simp [apiWrapperCacheGate, hc],
    fun k h1 h2 => by simp [apiWrapperCacheGate, hc, h1, h2],
    fun runRest2 => by simp [apiWrapperCacheGate, hc]⟩

/-- Witness for C5: a stored envelope under the default key of a concrete GET
request is served with call count 0, verbatim body and status, the HIT marker,
and the stored `Content-Type` header preserved. -/
theorem c5_cache_hit_short_circuits_witness :
    (apiWrapperCacheGate c5req (some c5cfg) (some c5store) "rid-5" true
        (fun _ => (⟨"", 0, fun _ => none⟩, 99))).1.2 = 0
  ∧ (apiWrapperCacheGate c5req (some c5cfg) (some c5store) "rid-5" true
        (fun _ => (⟨"", 0, fun _ => none⟩, 99))).1.1.body = "[1,2]"
  ∧ (apiWrapperCacheGate c5req (some c5cfg) (some c5store) "rid-5" true
        (fun _ => (⟨"", 0, fun _ => none⟩, 99))).1.1.status = 200
  ∧ (apiWrapperCacheGate c5req (some c5cfg) (some c5store) "rid-5" true
        (fun _ => (⟨"", 0, fun _ => none⟩, 99))).1.1.headers "X-Cache" = some "HIT"
  ∧ (apiWrapperCacheGate c5req (some c5cfg) (some c5store) "rid-5" true
        (fun _ => (⟨"", 0, fun _ => none⟩, 99))).1.1.headers "Content-Type"
      = some "application/json" := by
  have h := c5_cache_hit_short_circuits c5req c5cfg c5store "rid-5" true c5env
    (fun _ => (⟨"", 0, fun _ => none⟩, 99)) rfl rfl
  exact ⟨h.1, h.2.1, h.2.2.1, h.2.2.2.1,
    (h.2.2.2.2.2.1 "Content-Type" (by decide) (by decide)).trans rfl⟩

/-! ## Claim C9 -/

/-- C9: for every invocation with an auth requirement configured, a `null`
verification result yields the 401 Unauthorized failure handed to the error
converter (with the handler never invoked); an empty role list admits any
authenticated principal; and with a non-empty role list the principal is
admitted precisely when `hasRole` holds, else the 403 Forbidden failure is
raised. -/
theorem c9_auth_requirement_semantics {Ctx R U V A : Type} :
    (∀ (inp : PipelineInput Ctx R U V A) (counters : CounterMap) (now : Nat)
       (roles : List String) (a : AuthAdapter U A) (actx : A),
      inp.options.auth = some roles → inp.authAdapter = some a →
      inp.getAuthContext = .ok actx → a.verify actx = none →
      (runPipeline inp counters now).result =
        inp.onError (.api (ApiResponse.unauthorized))
          ⟨inp.requestId, inp.anonymous, 0, inp.method, inp.path⟩
      ∧ (runPipeline inp counters now).handlerCalls = 0)
  ∧ (∀ (a : AuthAdapter U A) (actx : A) (anon u : U),
      a.verify actx = some u →
      authStep (some []) (some a) (.ok actx) anon = .ok u)
  ∧ (∀ (roles : List String) (a : AuthAdapter U A) (actx : A) (anon u : U),
      roles ≠ [] → a.verify actx = some u →
      authStep (some roles) (some a) (.ok actx) anon =
        (if a.hasRole u roles then .ok u
         else .error (.api (ApiResponse.forbidden)))) := by
  refine ⟨?_, ?_, ?_⟩
  · intro inp counters now roles a actx h1 h2 h3 h4
    have ha : authStep inp.options.auth inp.authAdapter inp.getAuthContext inp.anonymous
        = .error (.api (ApiResponse.unauthorized)) := by
      rw [h1, h2, h3]
      simp [authStep, h4]
    constructor <;> simp [runPipeline, ha, failExit]
  · intro a actx anon u hv
    simp [authStep, hv]
  · intro roles a actx anon u hne hv
    have hl : 0 < roles.length := List.length_pos.mpr hne
    by_cases hr : a.hasRole u roles <;>
      simp [authStep, hv, hr, hl]

/-- Witness for C9: a pipeline requiring authentication whose adapter verifies
to `null` returns the converted 401 outcome without invoking the handler. -/
theorem c9_auth_requirement_semantics_witness :
    (runPipeline c9inp counters0 0).result = Except.ok 401
  ∧ (runPipeline c9inp counters0 0).handlerCalls = 0 := by
  have h := c9_auth_requirement_semantics.1 c9inp counters0 0 [] c9adapter ()
    rfl rfl rfl rfl
  exact ⟨h.1, h.2⟩

/-! ## Claim C8 -/

/-- C8: with no counter adapter the rate-limit check always admits
(fail-open); with an adapter, the Nth request within a window is admitted
precisely when `N ≤ max` (so request `max+1` is rejected), the check reports
`resetAt = now + windowMs ≥ now`, the step proceeds on an admitted request,
and the pipeline's rejection outcome carries the configured limit and the
computed reset time and never invokes the handler. -/
theorem c8_rate_limit_semantics {Ctx R U V A : Type} :
    (∀ (counters : CounterMap) (key : String) (cfg : RateLimitConfig) (now : Nat),
      (checkRateLimit false counters key cfg now).1.allowed = true)
  ∧ (∀ (counters : CounterMap) (key : String) (cfg : RateLimitConfig) (now N : Nat),
      1 ≤ N → counters key = N - 1 →
      (((checkRateLimit true counters key cfg now).1.allowed = true) ↔ N ≤ cfg.max)
      ∧ (checkRateLimit true counters key cfg now).1.count = N
      ∧ (checkRateLimit true counters key cfg now).1.resetAt = now + cfg.windowMs
      ∧ now ≤ (checkRateLimit true counters key cfg now).1.resetAt)
  ∧ (∀ (cfg : RateLimitConfig) (method path ident : String)
       (defaults : PipelineDefaults) (counters : CounterMap) (now N : Nat),
      1 ≤ N → N ≤ cfg.max → counters (buildRateLimitKey method path ident) = N - 1 →
      (rateLimitStep (.policy cfg) true method path ident defaults counters now).1
        = .proceed)
  ∧ (∀ (inp : PipelineInput Ctx R U V A) (counters : CounterMap) (now : Nat)
       (cfg : RateLimitConfig) (conv : RateLimitResult → R),
      inp.options.auth = none → inp.options.tenantScoped = false →
      inp.options.rateLimit = .policy cfg → inp.hasCache = true →
      counters (buildRateLimitKey inp.method inp.path (inp.getIdentifier inp.anonymous))
        = cfg.max →
      inp.onRateLimited = (fun res => .ok (conv res)) →
      (runPipeline inp counters now).result =
        .ok (conv ⟨false, some cfg.max, some (now + cfg.windowMs)⟩)
      ∧ (runPipeline inp counters now).handlerCalls = 0) := by
  refine ⟨?_, ?_, ?_, ?_⟩
  · intro counters key cfg now
    simp [checkRateLimit]
  · intro counters key cfg now N hN hcnt
    have hc : counters key + 1 = N := by omega
    refine ⟨?_, ?_, ?_, ?_⟩ <;>
      simp [checkRateLimit, CounterMap.increment, hc]
  · intro cfg method path ident defaults counters now N hN hmax hcnt
    have hc : counters (buildRateLimitKey method path ident) + 1 = N := by omega
    simp [rateLimitStep, checkRateLimit, CounterMap.increment, hc, hmax]
  · intro inp counters now cfg conv h1 h2 h3 h4 h5 h6
    have ha : authStep inp.options.auth inp.authAdapter inp.getAuthContext inp.anonymous
        = .ok inp.anonymous := by rw [h1]; rfl
    have ht : tenantStep inp.options.tenantScoped inp.authAdapter inp.getAuthContext
        inp.anonymous = .ok () := by rw [h2]; rfl
    have hlt : ¬(cfg.max + 1 ≤ cfg.max) := by omega
    have hc : counters (buildRateLimitKey inp.method inp.path
        (inp.getIdentifier inp.anonymous)) + 1 = cfg.max + 1 := by omega
    have hr : rateLimitStep inp.options.rateLimit inp.hasCache inp.method inp.path
        (inp.getIdentifier inp.anonymous) inp.defaults counters now =
        (.limited ⟨false, some cfg.max, some (now + cfg.windowMs)⟩,
         (counters.increment (buildRateLimitKey inp.method inp.path
            (inp.getIdentifier inp.anonymous))).2) := by
      rw [h3, h4]
      simp [rateLimitStep, checkRateLimit, CounterMap.increment, hc, hlt]
    constructor <;> simp [runPipeline, ha, ht, hr, h6]

/-- Witness for C8: with a 2/min policy and a counter already at 2, the third
request is rejected, carrying the limit 2 and `resetAt = now + 60000`, and
the handler is not invoked. -/
theorem c8_rate_limit_semantics_witness :
    (runPipeline c8inp c8counters 7).result = Except.ok (2, 60007)
  ∧ (runPipeline c8inp c8counters 7).handlerCalls = 0 := by
  have h := c8_rate_limit_semantics.2.2.2 c8inp c8counters 7 c8cfg
    (fun res => (res.limit.getD 0, res.resetAt.getD 0)) rfl rfl rfl rfl rfl rfl
  exact ⟨h.1, h.2⟩

/-! ## Claim C4 -/

/-- C4 counterexample: an invocation requiring auth with no auth adapter
configured (a configuration error) does not propagate the error past the
orchestrator as an unhandled exception — the run returns normally with the
error converter's structured 500 outcome, and the failure is even audited as
`INTERNAL_ERROR`.  (The "never retried" half of the claim does hold: the
handler call count is 0.) -/
theorem c4_counterexample :
    (runPipeline c4inp counters0 0).result =
      Except.ok ⟨500, ⟨false, "Internal server error", "INTERNAL_ERROR", none⟩, none⟩
  ∧ (runPipeline c4inp counters0 0).handlerCalls = 0
  ∧ (runPipeline c4inp counters0 0).audits =
      [⟨"req-4", "", "POST", "/cfg", 0, 500, false, some "INTERNAL_ERROR", 0⟩] :=
  ⟨rfl, rfl, rfl⟩

/-- C4 (amended): configuration errors — auth required without an auth
adapter, or tenant scoping without an `isTenantValid` capability — are never
retried (the handler-execution step is never reached, so the handler call
count is 0), but they are caught by the orchestrator's single outer catch
like any other error: they are audited as a status-500 `INTERNAL_ERROR`
failure and handed to the caller-supplied error converter, which turns them
into a structured failure outcome; they do not propagate past the
orchestrator uncaught. -/
theorem c4_amended_config_errors_caught {Ctx R U V A : Type} :
    (∀ (inp : PipelineInput Ctx R U V A) (counters : CounterMap) (now : Nat)
       (roles : List String),
      inp.options.auth = some roles → inp.authAdapter = none →
      (runPipeline inp counters now).result =
        inp.onError (.plain "Auth adapter not configured but auth is required")
          ⟨inp.requestId, inp.anonymous, 0, inp.method, inp.path⟩
      ∧ (runPipeline inp counters now).handlerCalls = 0
      ∧ ((inp.options.audit.getD true && inp.hasLogger) = true →
          (runPipeline inp counters now).audits =
            [⟨inp.requestId, inp.anonymous, inp.method, inp.path, 0, 500, false,
              some "INTERNAL_ERROR", now⟩]))
  ∧ (∀ (inp : PipelineInput Ctx R U V A) (counters : CounterMap) (now : Nat),
      inp.options.auth = none → inp.options.tenantScoped = true →
      inp.authAdapter.bind (fun a => a.isTenantValid) = none →
      (runPipeline inp counters now).result =
        inp.onError
          (.plain "isTenantValid must be defined in auth adapter when tenantScoped is true")
          ⟨inp.requestId, inp.anonymous, 0, inp.method, inp.path⟩
      ∧ (runPipeline inp counters now).handlerCalls = 0) := by
  constructor
  · intro inp counters now roles h1 h2
    have ha : authStep inp.options.auth inp.authAdapter inp.getAuthContext inp.anonymous
        = .error (.plain "Auth adapter not configured but auth is required") := by
      rw [h1, h2]; rfl
    refine ⟨?_, ?_, ?_⟩
    · simp [runPipeline, ha, failExit]
    · simp [runPipeline, ha, failExit]
    · intro haud
      simp [runPipeline, ha, failExit, haud, errorStatus, errorAuditCode]
  · intro inp counters now h1 h2 h3
    have ha : authStep inp.options.auth inp.authAdapter inp.getAuthContext inp.anonymous
        = .ok inp.anonymous := by rw [h1]; rfl
    have ht : tenantStep inp.options.tenantScoped inp.authAdapter inp.getAuthContext
        inp.anonymous = .error
          (.plain "isTenantValid must be defined in auth adapter when tenantScoped is true") := by
      rw [h2]
      simp [tenantStep, h3]
    constructor <;> simp [runPipeline, ha, ht, failExit]

/-- Witness for the amended C4 at `c4inp`: the configuration error is
converted to the structured 500 outcome, the handler is never invoked, and
one `INTERNAL_ERROR` audit record is emitted. -/
theorem c4_amended_config_errors_caught_witness :
    (runPipeline c4inp counters0 0).result =
      Except.ok ⟨500, ⟨false, "Internal server error", "INTERNAL_ERROR", none⟩, none⟩
  ∧ (runPipeline c4inp counters0 0).audits =
      [⟨"req-4", "", "POST", "/cfg", 0, 500, false, some "INTERNAL_ERROR", 0⟩] := by
  have h := c4_amended_config_errors_caught.1 c4inp counters0 0 [] rfl rfl
  exact ⟨h.1, h.2.2 rfl⟩

/-! ## Claim C2 -/

/-- C2 counterexample: in an invocation whose params schema fails on field `a`
and whose body schema fails on field `email`, the body slot does fail
validation (with field `email` in its issue list), yet the single resulting
422 outcome lists only the fields of the first failing slot — `["a"]`, with
no `email` entry — so the error list does not contain one entry per failing
field across all configured slots. -/
theorem c2_counterexample :
    slotValidate c2validation.body 0 "body" =
      Except.error (.api ⟨"Validation failed for body", 422, "VALIDATION_ERROR",
        some [⟨"email", "Invalid email"⟩]⟩)
  ∧ (runPipeline c2inp counters0 0).result = Except.ok ["a"]
  ∧ ¬ ("email" ∈ ["a"]) :=
  ⟨rfl, rfl, by decide⟩

/-- C2 (amended): when at least one configured slot fails validation, the
pipeline produces a single 422 `VALIDATION_ERROR` outcome whose error list
contains one entry per failing field of the first failing slot in the order
params, query, body (later slots are not consulted); each entry's field path
is dot-joined from the nested structure, so a failure on the `email` field
when validating the body slot alone yields field `"email"`. -/
theorem c2_amended_first_failing_slot {V : Type} :
    (∀ (validation : Option (ValidationConfig V)) (raw : RawInput V)
       (s : V → Except (List ZodIssue) V) (issues : List ZodIssue),
      validation.bind (fun v => v.params) = some s → s raw.params = .error issues →
      validateInputs validation raw = .error (.api ⟨"Validation failed for params",
        422, "VALIDATION_ERROR", some (formatZodErrors issues)⟩))
  ∧ (∀ (validation : Option (ValidationConfig V)) (raw : RawInput V) (p : V)
       (s : V → Except (List ZodIssue) V) (issues : List ZodIssue),
      slotValidate (validation.bind fun v => v.params) raw.params "params" = .ok p →
      validation.bind (fun v => v.query) = some s → s raw.query = .error issues →
      validateInputs validation raw = .error (.api ⟨"Validation failed for query",
        422, "VALIDATION_ERROR", some (formatZodErrors issues)⟩))
  ∧ (∀ (validation : Option (ValidationConfig V)) (raw : RawInput V) (p q : V)
       (s : V → Except (List ZodIssue) V) (issues : List ZodIssue),
      slotValidate (validation.bind fun v => v.params) raw.params "params" = .ok p →
      slotValidate (validation.bind fun v => v.query) raw.query "query" = .ok q →
      validation.bind (fun v => v.body) = some s → s raw.body = .error issues →
      validateInputs validation raw = .error (.api ⟨"Validation failed for body",
        422, "VALIDATION_ERROR", some (formatZodErrors issues)⟩))
  ∧ (∀ issues : List ZodIssue, (formatZodErrors issues).length = issues.length)
  ∧ (∀ f msg : String, formatZodErrors [⟨[f], msg⟩] = [⟨f, msg⟩])
  ∧ (∀ (Ctx R U A : Type) (inp : PipelineInput Ctx R U V A) (counters : CounterMap)
       (now : Nat) (raw : RawInput V) (e : JsError),
      inp.options.auth = none → inp.options.tenantScoped = false →
      inp.options.rateLimit = .off → inp.getRawInput = .ok raw →
      validateInputs inp.options.validation raw = .error e →
      (runPipeline inp counters now).result =
        inp.onError e ⟨inp.requestId, inp.anonymous, 0, inp.method, inp.path⟩
      ∧ (runPipeline inp counters now).handlerCalls = 0) := by
  refine ⟨?_, ?_, ?_, ?_, ?_, ?_⟩
  · intro validation raw s issues h1 h2
    simp [validateInputs, slotValidate, h1, validateSchema, h2]
  · intro validation raw p s issues hp h1 h2
    unfold validateInputs
    rw [hp]
    simp only [h1, slotValidate, validateSchema, h2]
    rfl
  · intro validation raw p q s issues hp hq h1 h2
    unfold validateInputs
    rw [hp]
    simp only []
    rw [hq]
    simp only [h1, slotValidate, validateSchema, h2]
    rfl
  · intro issues
    simp [formatZodErrors]
  · intro f msg
    simp [formatZodErrors, intercalate_dot_singleton]
  · intro Ctx R U A inp counters now raw e h1 h2 h3 h4 h5
    have ha : authStep inp.options.auth inp.authAdapter inp.getAuthContext inp.anonymous
        = .ok inp.anonymous := by rw [h1]; rfl
    have ht : tenantStep inp.options.tenantScoped inp.authAdapter inp.getAuthContext
        inp.anonymous = .ok () := by rw [h2]; rfl
    have hrl : rateLimitStep inp.options.rateLimit inp.hasCache inp.method inp.path
        (inp.getIdentifier inp.anonymous) inp.defaults counters now
        = (.proceed, counters) := by
      rw [h3]
      cases hhc : inp.hasCache <;> rfl
    have hrv : rawValidated inp.getRawInput inp.options.validation = .error e := by
      rw [h4]; simpa [rawValidated] using h5
    constructor <;> simp [runPipeline, ha, ht, hrl, hrv, failExit]

/-- Witness for the amended C2: the concrete two-failing-slot validation
yields the params-slot 422 error, and a singleton `email` path dot-joins to
the bare field name. -/
theorem c2_amended_first_failing_slot_witness :
    validateInputs (some c2validation) (⟨0, 0, 0⟩ : RawInput Nat) =
      Except.error (.api ⟨"Validation failed for params", 422, "VALIDATION_ERROR",
        some [⟨"a", "Required"⟩]⟩)
  ∧ formatZodErrors [⟨["email"], "Invalid email"⟩] = [⟨"email", "Invalid email"⟩] := by
  have h1 := c2_amended_first_failing_slot.1 (some c2validation) (⟨0, 0, 0⟩ : RawInput Nat)
    (fun _ => Except.error [⟨["a"], "Required"⟩]) [⟨["a"], "Required"⟩] rfl rfl
  have h2 := (c2_amended_first_failing_slot (V := Nat)).2.2.2.2.1 "email" "Invalid email"
  exact ⟨h1, h2⟩

/-! ## Claim C3 -/

/-- C3 counterexample: an invocation with audit left at its default (enabled)
and a logger adapter present that is rejected by the rate limiter emits no
audit record at all — the rate-limited short-circuit returns from inside the
`try` without reaching the audit step — contradicting "exactly one audit
record ... including short-circuit outcomes such as rate-limit rejection". -/
theorem c3_counterexample :
    c3inp.options.audit = none
  ∧ c3inp.hasLogger = true
  ∧ (runPipeline c3inp c3counters 0).result = Except.ok 429
  ∧ (runPipeline c3inp c3counters 0).handlerCalls = 0
  ∧ (runPipeline c3inp c3counters 0).audits = [] :=
  ⟨rfl, rfl, rfl, rfl, rfl⟩

/-- C3 (amended): with audit enabled (the default) and a logger adapter
present, exactly one audit record is emitted on the success path (with
`success = true` and status 200) and on the failure path (with
`success = false` and the failing status/code) — but a rate-limit rejection
whose converter returns normally short-circuits before the audit step and
emits no audit record. -/
theorem c3_amended_audit_once_except_rate_limited {Ctx R U V A : Type} :
    (∀ (inp : PipelineInput Ctx R U V A) (counters : CounterMap) (now : Nat)
       (raw : RawInput V) (r fin : R),
      inp.options.auth = none → inp.options.tenantScoped = false →
      inp.options.rateLimit = .off → inp.getRawInput = .ok raw →
      inp.options.validation = none → inp.options.retry = none →
      inp.options.timeout = none → inp.defaults.timeout = none →
      (inp.executeHandler (inp.buildContext inp.anonymous raw) 1).result = .ok r →
      inp.onSuccess r ⟨inp.requestId, inp.anonymous,
        (inp.executeHandler (inp.buildContext inp.anonymous raw) 1).duration,
        inp.method, inp.path⟩ = .ok fin →
      inp.options.audit = none → inp.hasLogger = true →
      (runPipeline inp counters now).audits =
        [⟨inp.requestId, inp.anonymous, inp.method, inp.path,
          (inp.executeHandler (inp.buildContext inp.anonymous raw) 1).duration,
          200, true, none, now⟩]
      ∧ (runPipeline inp counters now).result = .ok fin)
  ∧ (∀ (inp : PipelineInput Ctx R U V A) (counters : CounterMap) (now : Nat)
       (raw : RawInput V) (e : JsError),
      inp.options.auth = none → inp.options.tenantScoped = false →
      inp.options.rateLimit = .off → inp.getRawInput = .ok raw →
      inp.options.validation = none → inp.options.retry = none →
      inp.options.timeout = none → inp.defaults.timeout = none →
      (inp.executeHandler (inp.buildContext inp.anonymous raw) 1).result = .error e →
      inp.options.audit = none → inp.hasLogger = true →
      (runPipeline inp counters now).audits =
        [⟨inp.requestId, inp.anonymous, inp.method, inp.path,
          (inp.executeHandler (inp.buildContext inp.anonymous raw) 1).duration,
          errorStatus e, false, some (errorAuditCode e), now⟩]
      ∧ (runPipeline inp counters now).result =
          inp.onError e ⟨inp.requestId, inp.anonymous,
            (inp.executeHandler (inp.buildContext inp.anonymous raw) 1).duration,
            inp.method, inp.path⟩)
  ∧ (∀ (inp : PipelineInput Ctx R U V A) (counters : CounterMap) (now : Nat)
       (cfg : RateLimitConfig) (conv : RateLimitResult → R),
      inp.options.auth = none → inp.options.tenantScoped = false →
      inp.options.rateLimit = .policy cfg → inp.hasCache = true →
      counters (buildRateLimitKey inp.method inp.path (inp.getIdentifier inp.anonymous))
        = cfg.max →
      inp.onRateLimited = (fun res => .ok (conv res)) →
      inp.options.audit = none → inp.hasLogger = true →
      (runPipeline inp counters now).audits = []
      ∧ (runPipeline inp counters now).handlerCalls = 0) := by
  refine ⟨?_, ?_, ?_⟩
  · intro inp counters now raw r fin h1 h2 h3 h4 h5 h6 h7 h8 h9 h10 h11 h12
    have ha : authStep inp.options.auth inp.authAdapter inp.getAuthContext inp.anonymous
        = .ok inp.anonymous := by rw [h1]; rfl
    have ht : tenantStep inp.options.tenantScoped inp.authAdapter inp.getAuthContext
        inp.anonymous = .ok () := by rw [h2]; rfl
    have hrl : rateLimitStep inp.options.rateLimit inp.hasCache inp.method inp.path
        (inp.getIdentifier inp.anonymous) inp.defaults counters now
        = (.proceed, counters) := by
      rw [h3]
      cases hhc : inp.hasCache <;> rfl
    have hrv : rawValidated inp.getRawInput inp.options.validation = .ok raw := by
      rw [h4, h5]; rfl
    constructor <;>
      simp [runPipeline, ha, ht, hrl, hrv, h6, h7, h8, executeWithPolicies,
        jsOrTimeout, singleRun, h9, h10, h11, h12]
  · intro inp counters now raw e h1 h2 h3 h4 h5 h6 h7 h8 h9 h11 h12
    have ha : authStep inp.options.auth inp.authAdapter inp.getAuthContext inp.anonymous
        = .ok inp.anonymous := by rw [h1]; rfl
    have ht : tenantStep inp.options.tenantScoped inp.authAdapter inp.getAuthContext
        inp.anonymous = .ok () := by rw [h2]; rfl
    have hrl : rateLimitStep inp.options.rateLimit inp.hasCache inp.method inp.path
        (inp.getIdentifier inp.anonymous) inp.defaults counters now
        = (.proceed, counters) := by
      rw [h3]
      cases hhc : inp.hasCache <;> rfl
    have hrv : rawValidated inp.getRawInput inp.options.validation = .ok raw := by
      rw [h4, h5]; rfl
    constructor <;>
      simp [runPipeline, ha, ht, hrl, hrv, h6, h7, h8, executeWithPolicies,
        jsOrTimeout, singleRun, h9, h11, h12, failExit]
  · intro inp counters now cfg conv h1 h2 h3 h4 h5 h6 h11 h12
    have ha : authStep inp.options.auth inp.authAdapter inp.getAuthContext inp.anonymous
        = .ok inp.anonymous := by rw [h1]; rfl
    have ht : tenantStep inp.options.tenantScoped inp.authAdapter inp.getAuthContext
        inp.anonymous = .ok () := by rw [h2]; rfl
    have hlt : ¬(cfg.max + 1 ≤ cfg.max) := by omega
    have hc : counters (buildRateLimitKey inp.method inp.path
        (inp.getIdentifier inp.anonymous)) + 1 = cfg.max + 1 := by omega
    have hr : rateLimitStep inp.options.rateLimit inp.hasCache inp.method inp.path
        (inp.getIdentifier inp.anonymous) inp.defaults counters now =
        (.limited ⟨false, some cfg.max, some (now + cfg.windowMs)⟩,
         (counters.increment (buildRateLimitKey inp.method inp.path
            (inp.getIdentifier inp.anonymous))).2) := by
      rw [h3, h4]
      simp [rateLimitStep, checkRateLimit, CounterMap.increment, hc, hlt]
    constructor <;> simp [runPipeline, ha, ht, hr, h6]

/-- Witness for the amended C3: the concrete success run audits exactly once
with `success = true`, the concrete failing run audits exactly once with the
failing 400/`BAD_REQUEST`, and the concrete rate-limited run audits not at
all. -/
theorem c3_amended_audit_once_except_rate_limited_witness :
    (runPipeline c3okInp counters0 0).audits =
      [⟨"req-3b", "", "GET", "/ok", 5, 200, true, none, 0⟩]
  ∧ (runPipeline c3okInp counters0 0).result = Except.ok 123
  ∧ (runPipeline c3errInp counters0 0).audits =
      [⟨"req-3c", "", "GET", "/err", 5, 400, false, some "BAD_REQUEST", 0⟩]
  ∧ (runPipeline c3inp c3counters 0).audits = [] := by
  have hA := c3_amended_audit_once_except_rate_limited.1 c3okInp counters0 0
    ⟨0, 0, 0⟩ 123 123 rfl rfl rfl rfl rfl rfl rfl rfl rfl rfl rfl rfl
  have hB := c3_amended_audit_once_except_rate_limited.2.1 c3errInp counters0 0
    ⟨0, 0, 0⟩ (.api (ApiResponse.badRequest)) rfl rfl rfl rfl rfl rfl rfl rfl rfl rfl rfl
  have hC := c3_amended_audit_once_except_rate_limited.2.2 c3inp c3counters 0
    c3cfg (fun _ => 429) rfl rfl rfl rfl rfl rfl rfl rfl
  exact ⟨hA.1, hA.2, hB.1, hC.1⟩

end NextServerWrap
